import Mathlib

/-!
Shallow embedding of `src/main.rs` of the svgtail live SVG previewer.

The embedding models:
* the event kinds of the `notify` crate that the program matches on;
* `should_reload`, `load_svg`, `render` (transform computation and the
  un-premultiply pixel conversion), `wait_for_creation`'s receive loop;
* the main loop body (drain/reload, resize, fit recompute, key input,
  present-or-idle-wait) as a state-transition function on an explicit
  `LoopState`, with the watcher channel and the window as explicit inputs.

`f32` values are embedded as `ℚ` (all arithmetic stated about them here is
exact), machine integers as `ℕ` with the source's bounds, fallible reads and
parses as `Option`.
-/

namespace Svgtail

/-! ### Filesystem paths and the notify event model -/

/-- A filesystem path, as its list of components. -/
abbrev FsPath := List String

/-- Mirrors `notify::event::AccessMode`. -/
inductive AccessMode
  | any
  | execute
  | read
  | write
  | other
deriving DecidableEq

/-- Mirrors `notify::event::AccessKind` (`open` is a Lean keyword, hence `open_`). -/
inductive AccessKind
  | any
  | read
  | open_ (mode : AccessMode)
  | close (mode : AccessMode)
  | other
deriving DecidableEq

/-- Mirrors `notify::event::CreateKind`. -/
inductive CreateKind
  | any
  | file
  | folder
  | other
deriving DecidableEq

/-- Mirrors `notify::event::ModifyKind` (sub-kinds flattened; `should_reload` only
wildcard-matches them). `name` covers renames. -/
inductive ModifyKind
  | any
  | data
  | metadata
  | name
  | other
deriving DecidableEq

/-- Mirrors `notify::event::RemoveKind`. -/
inductive RemoveKind
  | any
  | file
  | folder
  | other
deriving DecidableEq

/-- Mirrors `notify::event::EventKind`. -/
inductive EventKind
  | any
  | access (kind : AccessKind)
  | create (kind : CreateKind)
  | modify (kind : ModifyKind)
  | remove (kind : RemoveKind)
  | other
deriving DecidableEq

/-- A debounced event: the paths it mentions and its kind
(`notify_debouncer_full::DebouncedEvent`, restricted to the fields the
program reads). -/
structure DebouncedEvent where
  paths : List FsPath
  kind : EventKind
deriving DecidableEq

/-- Mirrors `DebounceEventResult = Result<Vec<DebouncedEvent>, Vec<Error>>`; the error
payload is never inspected by the program, so it is `Unit`. -/
abbrev DebounceEventResult := Except Unit (List DebouncedEvent)

/-- Embeds `fn should_reload(kind: &EventKind) -> bool` (main.rs:59-64):
`false` for `Access(Open(Any))`, `true` for everything else. -/
def should_reload (kind : EventKind) : Bool :=
  match kind with
  | .access (.open_ .any) => false
  | _ => true

/-! ### Watch setup (which path each debouncer watches) -/

/-- Mirrors `notify::RecursiveMode`. -/
inductive RecursiveMode
  | recursive
  | nonRecursive
deriving DecidableEq

/-- One `debouncer.watch(target, mode)` call. -/
structure WatchCall where
  target : FsPath
  mode : RecursiveMode
deriving DecidableEq

/-- The parent directory used by `wait_for_creation` (main.rs:75-79):
`path.parent()` unless empty, else `"."`. -/
def waitParent (path : FsPath) : FsPath :=
  if path.dropLast = [] then ["."] else path.dropLast

/-- The watch call made by `wait_for_creation` (main.rs:86): it watches the
parent directory, non-recursively. -/
def waitWatchCall (svg_path : FsPath) : WatchCall :=
  { target := waitParent svg_path, mode := .nonRecursive }

/-- The steady-state watch call made in `main` (main.rs:126):
`debouncer.watch(&svg_path, RecursiveMode::NonRecursive)` — it watches the
target path itself, non-recursively. -/
def steadyWatchCall (svg_path : FsPath) : WatchCall :=
  { target := svg_path, mode := .nonRecursive }

/-! ### Documents and loading -/

/-- Raw file bytes. -/
abbrev FileData := List ℕ

/-- A parsed `usvg::Tree`: its intrinsic size (`tree.size()`) plus an opaque
scene payload distinguishing different documents of equal size. -/
structure Tree where
  width : ℚ
  height : ℚ
  scene : ℕ
deriving DecidableEq

/-- Embeds `fn load_svg(path, opts) -> Option<usvg::Tree>` (main.rs:17-20), with the
filesystem read result and the usvg parser as explicit inputs:
`let data = fs::read(path).ok()?; usvg::Tree::from_data(&data, opts).ok()`. -/
def load_svg (readResult : Option FileData) (parse : FileData → Option Tree) :
    Option Tree :=
  match readResult with
  | none => none
  | some data => parse data

/-! ### The pixel conversion inside `render` -/

/-- One premultiplied RGBA pixel of the painted `tiny_skia` pixmap
(each channel a byte, read as `u32`). -/
structure Rgba where
  r : ℕ
  g : ℕ
  b : ℕ
  a : ℕ
deriving DecidableEq

/-- The per-pixel un-premultiply-and-pack closure of `render`
(main.rs:45-55): alpha 0 becomes the background word `0x00333333`, otherwise
each channel is `c * 255 / a` clamped to 255 and the channels are packed as
`(r << 16) | (g << 8) | b`. -/
def convertPixel (px : Rgba) : ℕ :=
  if px.a == 0 then
    0x00333333
  else
    let r := min (px.r * 255 / px.a) 255
    let g := min (px.g * 255 / px.a) 255
    let b := min (px.b * 255 / px.a) 255
    (r <<< 16) ||| (g <<< 8) ||| b

/-- Packing three bytes by shift-and-or is positional base-256 arithmetic. -/
theorem pack_channels (x y z : ℕ) (_hx : x ≤ 255) (hy : y ≤ 255) (hz : z ≤ 255) :
    (x <<< 16) ||| (y <<< 8) ||| z = x * 65536 + y * 256 + z := by
  have hb : 2 ^ 8 * y + z < 2 ^ 16 := by omega
  have hz8 : z < 2 ^ 8 := by omega
  apply Nat.eq_of_testBit_eq
  intro i
  have hsum : x * 65536 + y * 256 + z = 2 ^ 16 * x + (2 ^ 8 * y + z) := by ring
  rw [hsum, Nat.testBit_or, Nat.testBit_or, Nat.testBit_shiftLeft, Nat.testBit_shiftLeft,
    Nat.testBit_mul_pow_two_add x hb i, Nat.testBit_mul_pow_two_add y hz8 i]
  by_cases h16 : i < 16
  · by_cases h8 : i < 8
    · simp [h16, h8, Nat.not_le.mpr h8, Nat.not_le.mpr h16]
    · have : (8 : ℕ) ≤ i := Nat.not_lt.mp h8
      have hzbit : Nat.testBit z i = false :=
        Nat.testBit_eq_false_of_lt (lt_of_lt_of_le hz8 (Nat.pow_le_pow_right (by omega) this))
      simp [h16, this, Nat.not_le.mpr h16, hzbit,
        Nat.testBit_mul_pow_two_add y hz8 i, h8]
  · have h16' : (16 : ℕ) ≤ i := Nat.not_lt.mp h16
    have h8' : (8 : ℕ) ≤ i := by omega
    have hzbit : Nat.testBit z i = false :=
      Nat.testBit_eq_false_of_lt (lt_of_lt_of_le hz8 (Nat.pow_le_pow_right (by omega) h8'))
    have hybit : Nat.testBit y (i - 8) = false :=
      Nat.testBit_eq_false_of_lt
        (lt_of_le_of_lt hy (by
          have : (2 : ℕ) ^ 8 ≤ 2 ^ (i - 8) := Nat.pow_le_pow_right (by omega) (by omega)
          omega))
    simp [h16, h16', h8', hzbit, hybit]

/-! ### The render transform -/

/-- The transform computation of `render` (main.rs:33-39): effective scale
`fit_scale * zoom`, and the centering translation offset by `pan`.
Returns `(eff_scale, offset_x, offset_y)`. -/
def renderTransform (tree : Tree) (width height : ℕ) (pan : ℚ × ℚ)
    (zoom fit_scale : ℚ) : ℚ × ℚ × ℚ :=
  let eff_scale := fit_scale * zoom
  let offset_x := ((width : ℚ) - tree.width * eff_scale) / 2 + pan.1
  let offset_y := ((height : ℚ) - tree.height * eff_scale) / 2 + pan.2
  (eff_scale, offset_x, offset_y)

/-- Models `tiny_skia::Pixmap::new(width, height)` (external collaborator): fails
exactly when a dimension is zero. -/
def pixmapNew (width height : ℕ) : Option Unit :=
  if width == 0 || height == 0 then none else some ()

/-- The painter abstracts `pixmap.fill` + `resvg::render` (external
collaborators): given the tree, the surface dimensions and the computed
transform, it yields the premultiplied RGBA pixels of the painted surface. -/
abbrev Painter := Tree → ℕ → ℕ → ℚ × ℚ × ℚ → List Rgba

/-- Embeds `fn render(tree, width, height, pan, zoom, fit_scale) -> Vec<u32>`
(main.rs:22-57): allocate the pixmap (`unwrap` panics on `none`, modelled by
the caller taking the `Option`), paint via the external rasterizer with the
computed transform, then convert every pixel. -/
def render (painter : Painter) (tree : Tree) (width height : ℕ)
    (pan : ℚ × ℚ) (zoom fit_scale : ℚ) : Option (List ℕ) :=
  (pixmapNew width height).map fun _ =>
    (painter tree width height (renderTransform tree width height pan zoom fit_scale)).map
      convertPixel

/-! ### The main loop as a state machine -/

/-- The mutable state of `main`'s loop (main.rs:118-158). -/
structure LoopState where
  tree : Option Tree
  pan : ℚ × ℚ
  zoom : ℚ
  auto_fit : Bool
  fit_scale : ℚ
  dirty : Bool
  width : ℕ
  height : ℕ
  was_active : Bool
  buffer : List ℕ
deriving DecidableEq

/-- The initial loop state (main.rs:118, 130-131, 144-153). -/
def initState (tree0 : Option Tree) (active0 : Bool) : LoopState :=
  { tree := tree0
    pan := (0, 0)
    zoom := 1
    auto_fit := true
    fit_scale := 1
    dirty := true
    width := 800
    height := 600
    was_active := active0
    buffer := List.replicate (800 * 600) 0 }

/-- The `window.is_key_down(...)` samples for the keys the loop reads. -/
structure KeyState where
  k : Bool
  j : Bool
  h : Bool
  l : Bool
  equal : Bool
  numPadPlus : Bool
  minus : Bool
  numPadMinus : Bool
  r : Bool
deriving DecidableEq

/-- All keys up. -/
def KeyState.none : KeyState :=
  ⟨false, false, false, false, false, false, false, false, false⟩

/-- The external inputs consumed by one pass of the loop body. -/
structure IterInput where
  /-- `window.is_active()` at the top of the iteration. -/
  active : Bool
  /-- Everything `rx.try_recv()` yields during the drain, in order. -/
  drained : List DebounceEventResult
  /-- `fs::read(&svg_path).ok()` at the moment a reload reads the file. -/
  fileRead : Option FileData
  /-- `window.get_size()`. -/
  windowSize : ℕ × ℕ
  /-- The key states sampled by step 4. -/
  keys : KeyState
  /-- What `rx.recv_timeout` yields if the idle branch is taken
  (`none` = timeout or disconnect). -/
  idleRecv : Option DebounceEventResult

/-- Focus-transition check (main.rs:161-165): regaining focus forces dirty. -/
def focusStep (active : Bool) (s : LoopState) : LoopState :=
  { s with dirty := if active && !s.was_active then true else s.dirty
           was_active := active }

/-- Step 1's drain (main.rs:168-180): fold every queued result, marking
reload on any event that mentions the target path with a reload-worthy kind,
and on any channel error result. -/
def drainReload (svg_path : FsPath) (queued : List DebounceEventResult) : Bool :=
  queued.foldl
    (fun reload res =>
      match res with
      | .ok events =>
          events.foldl
            (fun r e =>
              if e.paths.any (fun p => p == svg_path) && should_reload e.kind then true else r)
            reload
      | .error _ => true)
    false

/-- Step 1's reload (main.rs:181-189): on a successful load, replace the
tree and reset the viewport; on a failed load, change nothing. -/
def reloadStep (loadResult : Option Tree) (reload : Bool) (s : LoopState) : LoopState :=
  if reload then
    match loadResult with
    | some new_tree =>
        { s with tree := some new_tree
                 pan := (0, 0)
                 zoom := 1
                 auto_fit := true
                 dirty := true }
    | none => s
  else s

/-- Mirrors `Vec::resize(n, v)`: truncate or pad with `v` to length `n`. -/
def resizeList (l : List ℕ) (n : ℕ) (v : ℕ) : List ℕ :=
  l.take n ++ List.replicate (n - l.length) v

/-- Step 2, resize (main.rs:191-198): when the reported size differs from
the stored one, store it clamped to at least 1 and mark dirty. -/
def resizeStep (newSize : ℕ × ℕ) (s : LoopState) : LoopState :=
  if newSize.1 != s.width || newSize.2 != s.height then
    { s with width := max newSize.1 1
             height := max newSize.2 1
             buffer := resizeList s.buffer (max newSize.1 1 * max newSize.2 1) 0
             dirty := true }
  else s

/-- The fit-scale formula of step 3 (main.rs:204-205). -/
def computeFitScale (width height : ℕ) (tree : Tree) : ℚ :=
  min ((width : ℚ) / tree.width) ((height : ℚ) / tree.height)

/-- Step 3 (main.rs:200-207): recompute `fit_scale` only when dirty with
auto-fit active and a tree present. -/
def fitStep (s : LoopState) : LoopState :=
  if s.dirty && s.auto_fit then
    match s.tree with
    | some t => { s with fit_scale := computeFitScale s.width s.height t }
    | none => s
  else s

/-- Step 4, input (main.rs:209-246): vim-style pan, zoom in/out, reset. -/
def inputStep (keys : KeyState) (s : LoopState) : LoopState :=
  let pan_speed : ℚ := 10
  let s := if keys.k then
    { s with pan := (s.pan.1, s.pan.2 + pan_speed), auto_fit := false, dirty := true } else s
  let s := if keys.j then
    { s with pan := (s.pan.1, s.pan.2 - pan_speed), auto_fit := false, dirty := true } else s
  let s := if keys.h then
    { s with pan := (s.pan.1 + pan_speed, s.pan.2), auto_fit := false, dirty := true } else s
  let s := if keys.l then
    { s with pan := (s.pan.1 - pan_speed, s.pan.2), auto_fit := false, dirty := true } else s
  let s := if keys.equal || keys.numPadPlus then
    { s with zoom := s.zoom * (11 / 10), auto_fit := false, dirty := true } else s
  let s := if keys.minus || keys.numPadMinus then
    { s with zoom := s.zoom / (11 / 10), auto_fit := false, dirty := true } else s
  if keys.r then
    { s with pan := (0, 0), zoom := 1, auto_fit := true, dirty := true } else s

/-- The idle branch's handling of one `rx.recv_timeout` outcome
(main.rs:270-292): a reload-worthy event for the target path, or a channel
error, only sets `dirty`; a timeout or disconnect leaves it. -/
def idleDirty (svg_path : FsPath) (recvRes : Option DebounceEventResult)
    (dirty : Bool) : Bool :=
  match recvRes with
  | some (.ok events) =>
      if events.any (fun e => e.paths.any (fun p => p == svg_path) && should_reload e.kind) then
        true
      else dirty
  | some (.error _) => true
  | none => dirty

/-- Step 5, present-or-wait (main.rs:248-293): when dirty, render (or fill
the background when no tree) and clear dirty; otherwise pump the window and
wait on the channel, folding the outcome into `dirty` via `idleDirty`. -/
def presentStep (painter : Painter) (svg_path : FsPath)
    (idleRecv : Option DebounceEventResult) (s : LoopState) : LoopState :=
  if s.dirty then
    let buffer :=
      match s.tree with
      | some t => (render painter t s.width s.height s.pan s.zoom s.fit_scale).getD s.buffer
      | none => s.buffer.map fun _ => 0x00333333
    { s with buffer := buffer, dirty := false }
  else
    { s with dirty := idleDirty svg_path idleRecv s.dirty }

/-- One pass of the main loop body (main.rs:160-294), steps in source order:
focus check, drain + at-most-one reload, resize, fit recompute, input,
present-or-wait. -/
def loopIter (parse : FileData → Option Tree) (painter : Painter)
    (svg_path : FsPath) (inp : IterInput) (s : LoopState) : LoopState :=
  let s := focusStep inp.active s
  let reload := drainReload svg_path inp.drained
  let s := reloadStep (load_svg inp.fileRead parse) reload s
  let s := resizeStep inp.windowSize s
  let s := fitStep s
  let s := inputStep inp.keys s
  presentStep painter svg_path inp.idleRecv s

/-! ### The `wait_for_creation` receive loop -/

/-- One `rx.recv()` outcome inside `wait_for_creation`. -/
inductive RecvStep
  /-- `Ok(Ok(events))`. -/
  | events (events : List DebouncedEvent)
  /-- `Ok(Err(_))`: a watch error delivered on the channel. -/
  | watchErr
  /-- `Err(e)`: the channel is disconnected. -/
  | disconnected
deriving DecidableEq

/-- How a run of the `wait_for_creation` loop ends. -/
inductive WaitOutcome
  /-- `return Ok(())`. -/
  | ok
  /-- `return Err(e.into())`. -/
  | fatal
  /-- The loop is still blocked waiting for the next receive. -/
  | stillWaiting
deriving DecidableEq

/-- The receive loop of `wait_for_creation` (main.rs:88-102), run over a
finite trace of receive outcomes paired with the value of `path.exists()`
at the moment the outcome is handled. -/
def waitLoop (path : FsPath) : List (RecvStep × Bool) → WaitOutcome
  | [] => .stillWaiting
  | (step, pathExists) :: rest =>
    match step with
    | .events events =>
        if events.any (fun e => e.paths.any (fun p => p == path)) && pathExists then .ok
        else waitLoop path rest
    | .watchErr => if pathExists then .ok else waitLoop path rest
    | .disconnected => .fatal

/-- Running the loop body over a finite trace of per-iteration inputs. -/
def loopRun (parse : FileData → Option Tree) (painter : Painter) (svg_path : FsPath) :
    List IterInput → LoopState → LoopState
  | [], s => s
  | inp :: rest, s => loopRun parse painter svg_path rest (loopIter parse painter svg_path inp s)

/-! ### Helper lemmas: which fields each step can touch -/

lemma reloadStep_width (o : Option Tree) (r : Bool) (s : LoopState) :
    (reloadStep o r s).width = s.width := by
  unfold reloadStep; split
  · split <;> rfl
  · rfl

lemma reloadStep_height (o : Option Tree) (r : Bool) (s : LoopState) :
    (reloadStep o r s).height = s.height := by
  unfold reloadStep; split
  · split <;> rfl
  · rfl

lemma resizeStep_tree (n : ℕ × ℕ) (s : LoopState) : (resizeStep n s).tree = s.tree := by
  unfold resizeStep; split <;> rfl

lemma resizeStep_auto_fit (n : ℕ × ℕ) (s : LoopState) :
    (resizeStep n s).auto_fit = s.auto_fit := by
  unfold resizeStep; split <;> rfl

lemma resizeStep_dirty_of (n : ℕ × ℕ) (s : LoopState) (h : s.dirty = true) :
    (resizeStep n s).dirty = true := by
  unfold resizeStep; split
  · rfl
  · exact h

lemma resizeStep_width_pos (n : ℕ × ℕ) (s : LoopState) (h : 1 ≤ s.width) :
    1 ≤ (resizeStep n s).width := by
  unfold resizeStep; split
  · exact Nat.le_max_right _ _
  · exact h

lemma resizeStep_height_pos (n : ℕ × ℕ) (s : LoopState) (h : 1 ≤ s.height) :
    1 ≤ (resizeStep n s).height := by
  unfold resizeStep; split
  · exact Nat.le_max_right _ _
  · exact h

lemma fitStep_width (s : LoopState) : (fitStep s).width = s.width := by
  unfold fitStep; split
  · split <;> rfl
  · rfl

lemma fitStep_height (s : LoopState) : (fitStep s).height = s.height := by
  unfold fitStep; split
  · split <;> rfl
  · rfl

lemma inputStep_fit_scale (keys : KeyState) (s : LoopState) :
    (inputStep keys s).fit_scale = s.fit_scale := by
  unfold inputStep
  split_ifs <;> rfl

lemma inputStep_width (keys : KeyState) (s : LoopState) :
    (inputStep keys s).width = s.width := by
  unfold inputStep
  split_ifs <;> rfl

lemma inputStep_height (keys : KeyState) (s : LoopState) :
    (inputStep keys s).height = s.height := by
  unfold inputStep
  split_ifs <;> rfl

lemma presentStep_width (painter : Painter) (p : FsPath) (rcv : Option DebounceEventResult)
    (s : LoopState) : (presentStep painter p rcv s).width = s.width := by
  unfold presentStep; split <;> rfl

lemma presentStep_height (painter : Painter) (p : FsPath) (rcv : Option DebounceEventResult)
    (s : LoopState) : (presentStep painter p rcv s).height = s.height := by
  unfold presentStep; split <;> rfl

lemma pixmapNew_pos (w h : ℕ) (hw : 1 ≤ w) (hh : 1 ≤ h) : pixmapNew w h = some () := by
  unfold pixmapNew
  have hc : (w == 0 || h == 0) = false := by
    simp only [Bool.or_eq_false_iff, beq_eq_false_iff_ne, ne_eq]
    omega
  rw [hc]
  rfl

lemma loopIter_dims_pos (parse : FileData → Option Tree) (painter : Painter)
    (svg_path : FsPath) (inp : IterInput) (s : LoopState)
    (hw : 1 ≤ s.width) (hh : 1 ≤ s.height) :
    1 ≤ (loopIter parse painter svg_path inp s).width ∧
    1 ≤ (loopIter parse painter svg_path inp s).height := by
  unfold loopIter
  rw [presentStep_width, presentStep_height, inputStep_width, inputStep_height,
    fitStep_width, fitStep_height]
  constructor
  · apply resizeStep_width_pos
    rw [reloadStep_width]
    exact hw
  · apply resizeStep_height_pos
    rw [reloadStep_height]
    exact hh

lemma loopRun_dims_pos (parse : FileData → Option Tree) (painter : Painter)
    (svg_path : FsPath) (trace : List IterInput) :
    ∀ s : LoopState, 1 ≤ s.width → 1 ≤ s.height →
      1 ≤ (loopRun parse painter svg_path trace s).width ∧
      1 ≤ (loopRun parse painter svg_path trace s).height := by
  induction trace with
  | nil => exact fun s hw hh => ⟨hw, hh⟩
  | cons inp rest ih =>
    intro s hw hh
    have h := loopIter_dims_pos parse painter svg_path inp s hw hh
    exact ih _ h.1 h.2

/-! ### Concrete fixtures -/

/-- A concrete target path. -/
def samplePath : FsPath := ["home", "user", "drawing.svg"]

/-- A concrete document of intrinsic size 400×300. -/
def sampleTree : Tree := ⟨400, 300, 0⟩

/-- A second, distinct document of the same intrinsic size. -/
def sampleTree1 : Tree := ⟨400, 300, 1⟩

/-- A concrete parser: the byte string `[1]` parses to `sampleTree1`,
everything else is malformed. -/
def sampleParse : FileData → Option Tree :=
  fun d => if d = [1] then some sampleTree1 else none

/-- A trivial concrete painter. -/
def samplePainter : Painter := fun _ _ _ _ => []

/-- A reload-worthy data-modification event on the target path. -/
def modifyEvent : DebouncedEvent := ⟨[samplePath], .modify .data⟩

/-- Loop state sitting idle (not dirty) with `sampleTree` shown. -/
def idleShowingState : LoopState :=
  { tree := some sampleTree
    pan := (0, 0)
    zoom := 1
    auto_fit := true
    fit_scale := 2
    dirty := false
    width := 800
    height := 600
    was_active := true
    buffer := [] }

/-- Iteration input: nothing queued, a modify event arrives during the idle
wait. -/
def idleEventInput : IterInput :=
  ⟨true, [], none, (800, 600), KeyState.none, some (.ok [modifyEvent])⟩

/-- Iteration input for the following pass: the channel is empty again (the
idle receive consumed the event), while the file on disk now reads as `[1]`,
which parses successfully to `sampleTree1`. -/
def afterEventInput : IterInput :=
  ⟨true, [], some [1], (800, 600), KeyState.none, none⟩

/-- Iteration input whose window reports a degenerate 0×0 size. -/
def zeroSizeInput : IterInput :=
  ⟨true, [], none, (0, 0), KeyState.none, none⟩

/-! ### Claim theorems -/

/-- C1, counterexample: the steady-state watch call of `main` does NOT watch
the parent directory of the target path — it watches the target path itself.
At the concrete path `home/user/drawing.svg` the steady-state watch call
differs from the parent-directory watch call that `wait_for_creation` makes. -/
theorem steady_watch_parent_cex :
    steadyWatchCall samplePath ≠ waitWatchCall samplePath ∧
    (steadyWatchCall samplePath).target = samplePath ∧
    waitParent samplePath = ["home", "user"] := by
  refine ⟨?_, rfl, by decide⟩
  decide

/-- C1, amended: during steady-state operation the notifier watches the
target path itself (not its parent directory), non-recursively; the loop
nonetheless filters delivered events, both in the drain and in the idle
wait, to those whose path list mentions the target file (`wait_for_creation`
is the call site that watches the parent directory). -/
theorem steady_watch_target_amended (p : FsPath) (e : DebouncedEvent) :
    (steadyWatchCall p).target = p ∧
    (steadyWatchCall p).mode = RecursiveMode.nonRecursive ∧
    (waitWatchCall p).target = waitParent p ∧
    drainReload p [Except.ok [e]] =
      ((e.paths.any fun q => q == p) && should_reload e.kind) ∧
    idleDirty p (some (Except.ok [e])) false =
      ((e.paths.any fun q => q == p) && should_reload e.kind) := by
  refine ⟨rfl, rfl, rfl, ?_, ?_⟩
  · have hd : drainReload p [Except.ok [e]] =
        (if ((e.paths.any fun q => q == p) && should_reload e.kind) = true
         then true else false) := rfl
    rw [hd]
    cases h : (e.paths.any fun q => q == p) && should_reload e.kind <;> rfl
  · have hany : ([e].any fun ev => ev.paths.any (fun q => q == p) && should_reload ev.kind)
        = ((e.paths.any fun q => q == p) && should_reload e.kind) := by
      simp only [List.any_cons, List.any_nil, Bool.or_false]
    have hi : idleDirty p (some (Except.ok [e])) false =
        (if ([e].any fun ev => ev.paths.any (fun q => q == p) && should_reload ev.kind) = true
         then true else false) := rfl
    rw [hi, hany]
    cases h : (e.paths.any fun q => q == p) && should_reload e.kind <;> rfl

/-- C2, code bug: a reload-worthy modify event received during the idle wait
only sets the dirty flag; it is consumed from the channel, so the following
iteration's drain sees nothing, its reload flag stays false, and no reload is
performed — the stale tree is re-rendered even though the file now parses to
a different document. This contradicts the source's own comments
(`push it back into handling by marking reload`, `reload next iteration`). -/
theorem idle_event_reload_dropped :
    (loopIter sampleParse samplePainter samplePath idleEventInput idleShowingState).dirty
      = true ∧
    drainReload samplePath afterEventInput.drained = false ∧
    load_svg afterEventInput.fileRead sampleParse = some sampleTree1 ∧
    (loopIter sampleParse samplePainter samplePath afterEventInput
        (loopIter sampleParse samplePainter samplePath idleEventInput idleShowingState)).tree
      = some sampleTree ∧
    sampleTree ≠ sampleTree1 := by
  refine ⟨by decide, rfl, by decide, by decide, by decide⟩

/-- C3: whenever the file read fails or the content fails to parse,
`load_svg` yields no document, and the reload step leaves the previously
cached tree exactly as it was. -/
theorem reload_failure_keeps_tree (parse : FileData → Option Tree)
    (readResult : Option FileData)
    (h : readResult = none ∨ ∃ d, readResult = some d ∧ parse d = none)
    (reload : Bool) (s : LoopState) :
    load_svg readResult parse = none ∧
    (reloadStep (load_svg readResult parse) reload s).tree = s.tree := by
  have hnone : load_svg readResult parse = none := by
    rcases h with h | ⟨d, hd, hp⟩
    · rw [h]; rfl
    · rw [hd]; exact hp
  refine ⟨hnone, ?_⟩
  rw [hnone]
  unfold reloadStep
  cases reload <;> simp

/-- Witness for C3 at a malformed concrete read. -/
theorem reload_failure_keeps_tree_witness :
    load_svg (some [2]) sampleParse = none ∧
    (reloadStep (load_svg (some [2]) sampleParse) true (initState none false)).tree
      = (initState none false).tree :=
  reload_failure_keeps_tree sampleParse (some [2])
    (Or.inr ⟨[2], rfl, by decide⟩) true (initState none false)

/-- C4: after a successful reload the viewport is reset (`auto_fit = true`,
`pan = (0,0)`, `zoom = 1`), and after the subsequent resize and fit steps —
i.e. before the render of that iteration — `fit_scale` equals
`min(width / doc_w, height / doc_h)` for the window dimensions held at that
moment; the input step never changes `fit_scale` afterwards. -/
theorem reload_success_resets_viewport (parse : FileData → Option Tree)
    (readResult : Option FileData) (t : Tree)
    (h : load_svg readResult parse = some t)
    (s : LoopState) (newSize : ℕ × ℕ) (keys : KeyState) :
    (reloadStep (load_svg readResult parse) true s).auto_fit = true ∧
    (reloadStep (load_svg readResult parse) true s).pan = (0, 0) ∧
    (reloadStep (load_svg readResult parse) true s).zoom = 1 ∧
    (fitStep (resizeStep newSize (reloadStep (load_svg readResult parse) true s))).fit_scale =
      min
        (((resizeStep newSize (reloadStep (load_svg readResult parse) true s)).width : ℚ)
          / t.width)
        (((resizeStep newSize (reloadStep (load_svg readResult parse) true s)).height : ℚ)
          / t.height) ∧
    (inputStep keys
        (fitStep (resizeStep newSize (reloadStep (load_svg readResult parse) true s)))).fit_scale
      = (fitStep (resizeStep newSize (reloadStep (load_svg readResult parse) true s))).fit_scale
      := by
  rw [h]
  refine ⟨rfl, rfl, rfl, ?_, inputStep_fit_scale keys _⟩
  have hsr : reloadStep (some t) true s =
      { s with tree := some t, pan := (0, 0), zoom := 1, auto_fit := true, dirty := true } :=
    rfl
  rw [hsr]
  have hd : (resizeStep newSize
      { s with tree := some t, pan := (0, 0), zoom := 1, auto_fit := true,
               dirty := true }).dirty = true :=
    resizeStep_dirty_of _ _ rfl
  have ha := resizeStep_auto_fit newSize
    { s with tree := some t, pan := (0, 0), zoom := 1, auto_fit := true, dirty := true }
  have ht := resizeStep_tree newSize
    { s with tree := some t, pan := (0, 0), zoom := 1, auto_fit := true, dirty := true }
  unfold fitStep
  rw [hd, ha]
  simp only [ht]
  rfl

/-- Witness for C4 at a concrete successful parse and a window resize. -/
theorem reload_success_resets_viewport_witness :
    (reloadStep (load_svg (some [1]) sampleParse) true idleShowingState).auto_fit = true :=
  (reload_success_resets_viewport sampleParse (some [1]) sampleTree1 (by decide)
    idleShowingState (1000, 700) KeyState.none).1

/-- C5, counterexample: a watch error delivered on the channel while the
target path still does not exist is NOT propagated as a fatal startup error —
`wait_for_creation` keeps blocking. -/
theorem wait_watch_error_not_fatal_cex :
    waitLoop ["a.svg"] [(RecvStep.watchErr, false)] ≠ WaitOutcome.fatal ∧
    waitLoop ["a.svg"] [(RecvStep.watchErr, false)] = WaitOutcome.stillWaiting := by
  refine ⟨?_, rfl⟩
  decide

/-- C5, amended: `wait_for_creation` blocks until an event mentioning the
target path arrives while the path exists (returning success); a watch error
delivered on the channel is not fatal — it returns success if the path exists
at that point and otherwise keeps waiting; only a disconnected channel is
propagated as a fatal error. -/
theorem wait_for_creation_amended (path : FsPath) (events : List DebouncedEvent)
    (pathExists : Bool) (rest : List (RecvStep × Bool)) :
    waitLoop path ((RecvStep.disconnected, pathExists) :: rest) = WaitOutcome.fatal ∧
    waitLoop path ((RecvStep.watchErr, true) :: rest) = WaitOutcome.ok ∧
    waitLoop path ((RecvStep.watchErr, false) :: rest) = waitLoop path rest ∧
    ((events.any fun e => e.paths.any fun p => p == path) = true →
      waitLoop path ((RecvStep.events events, true) :: rest) = WaitOutcome.ok) := by
  refine ⟨rfl, rfl, rfl, fun h => ?_⟩
  simp [waitLoop, h]

/-- Witness for C5's amended claim: a creation event mentioning the path,
received while the path exists, unblocks the wait. -/
theorem wait_for_creation_amended_witness :
    waitLoop samplePath [(RecvStep.events [⟨[samplePath], .create .file⟩], true)]
      = WaitOutcome.ok :=
  (wait_for_creation_amended samplePath [⟨[samplePath], .create .file⟩] true []).2.2.2
    (by decide)

/-- C6: `should_reload` returns `false` exactly on the file-opened access
kind `Access(Open(Any))` (the kind the watcher delivers when the file is
merely opened for reading) and `true` on every other kind; a watch-channel
error is treated as reload-worthy both in the drain (it sets the reload flag)
and in the idle wait (it sets the dirty flag). -/
theorem should_reload_spec :
    (∀ kind : EventKind,
      should_reload kind = false ↔ kind = EventKind.access (.open_ .any)) ∧
    (∀ path : FsPath, drainReload path [Except.error ()] = true) ∧
    (∀ (path : FsPath) (dirty : Bool),
      idleDirty path (some (Except.error ())) dirty = true) := by
  refine ⟨?_, fun path => rfl, fun path dirty => rfl⟩
  intro kind
  cases kind <;> try simp [should_reload]
  case access ak =>
    cases ak <;> try simp [should_reload]
    case open_ am => cases am <;> simp [should_reload]

/-- C7: in the pixel conversion, a pixel with alpha 255 keeps its RGB
channels unchanged (packed at their byte positions), and a pixel with alpha 0
becomes the fixed background word `0x00333333` whatever its RGB payload. -/
theorem unpremultiply_roundtrip (r g b : ℕ)
    (hr : r ≤ 255) (hg : g ≤ 255) (hb : b ≤ 255) :
    convertPixel ⟨r, g, b, 255⟩ = r * 65536 + g * 256 + b ∧
    ∀ r2 g2 b2 : ℕ, convertPixel ⟨r2, g2, b2, 0⟩ = 0x00333333 := by
  constructor
  · have e1 : min (r * 255 / 255) 255 = r := by
      rw [Nat.mul_div_cancel _ (by omega)]
      exact Nat.min_eq_left hr
    have e2 : min (g * 255 / 255) 255 = g := by
      rw [Nat.mul_div_cancel _ (by omega)]
      exact Nat.min_eq_left hg
    have e3 : min (b * 255 / 255) 255 = b := by
      rw [Nat.mul_div_cancel _ (by omega)]
      exact Nat.min_eq_left hb
    show (if ((255 : ℕ) == 0) = true then 0x00333333 else _) = _
    rw [if_neg (by decide)]
    simp only
    rw [e1, e2, e3]
    exact pack_channels r g b hr hg hb
  · intro r2 g2 b2
    rfl

/-- Witness for C7 at the concrete pixel (18, 52, 86, 255). -/
theorem unpremultiply_roundtrip_witness :
    convertPixel ⟨18, 52, 86, 255⟩ = 18 * 65536 + 52 * 256 + 86 :=
  (unpremultiply_roundtrip 18 52 86 (by omega) (by omega) (by omega)).1

/-- C8: for alpha > 0 each output channel is the integer un-premultiplication
`c * 255 / a` clamped to 255, packed in base 256, and the packed result fits
in 24 bits (top byte zero) — no wraparound. -/
theorem unpremultiply_clamp_pack (r g b a : ℕ) (ha : 0 < a) :
    convertPixel ⟨r, g, b, a⟩ =
      min (r * 255 / a) 255 * 65536 + min (g * 255 / a) 255 * 256 + min (b * 255 / a) 255 ∧
    convertPixel ⟨r, g, b, a⟩ < 2 ^ 24 := by
  have hne : ((a : ℕ) == 0) = false := by
    simp only [beq_eq_false_iff_ne, ne_eq]
    omega
  have h1 : min (r * 255 / a) 255 ≤ 255 := Nat.min_le_right _ _
  have h2 : min (g * 255 / a) 255 ≤ 255 := Nat.min_le_right _ _
  have h3 : min (b * 255 / a) 255 ≤ 255 := Nat.min_le_right _ _
  have hpack := pack_channels _ _ _ h1 h2 h3
  have hmain : convertPixel ⟨r, g, b, a⟩ =
      min (r * 255 / a) 255 * 65536 + min (g * 255 / a) 255 * 256 + min (b * 255 / a) 255 := by
    show (if ((a : ℕ) == 0) = true then 0x00333333 else _) = _
    rw [hne]
    rw [if_neg (by simp)]
    exact hpack
  refine ⟨hmain, ?_⟩
  rw [hmain]
  omega

/-- Witness for C8 at the concrete pixel (200, 10, 0, 128); the red channel
overshoots (200·255/128 = 398) and is clamped to 255. -/
theorem unpremultiply_clamp_pack_witness :
    convertPixel ⟨200, 10, 0, 128⟩ =
      min (200 * 255 / 128) 255 * 65536 + min (10 * 255 / 128) 255 * 256
        + min (0 * 255 / 128) 255 ∧
    convertPixel ⟨200, 10, 0, 128⟩ < 2 ^ 24 :=
  unpremultiply_clamp_pack 200 10 0 128 (by omega)

/-- C9: `render` computes the effective scale `fit_scale * zoom` and centers
the scaled document, offset by the pan; in the 800×600 window / 400×300
document scenario the auto-fit scale is 2 and the offset at zoom 1, pan (0,0)
is (0,0). -/
theorem render_transform_spec (t : Tree) (width height : ℕ) (pan : ℚ × ℚ)
    (zoom fit_scale : ℚ) :
    (renderTransform t width height pan zoom fit_scale).1 = fit_scale * zoom ∧
    (renderTransform t width height pan zoom fit_scale).2.1 =
      ((width : ℚ) - t.width * (fit_scale * zoom)) / 2 + pan.1 ∧
    (renderTransform t width height pan zoom fit_scale).2.2 =
      ((height : ℚ) - t.height * (fit_scale * zoom)) / 2 + pan.2 ∧
    computeFitScale 800 600 sampleTree = 2 ∧
    renderTransform sampleTree 800 600 (0, 0) 1 2 = (2, 0, 0) := by
  refine ⟨rfl, rfl, rfl, ?_, ?_⟩
  · unfold computeFitScale sampleTree
    norm_num
  · unfold renderTransform sampleTree
    norm_num [Prod.ext_iff]

/-- C10: the tracked window dimensions start at 800×600 and stay at least 1
through any run of the loop (the resize step clamps reported dimensions to a
minimum of 1), so the pixmap allocation inside `render` always gets nonzero
dimensions and succeeds. -/
theorem window_dims_positive (parse : FileData → Option Tree) (painter : Painter)
    (svg_path : FsPath) (inp : IterInput) (trace : List IterInput)
    (t0 : Option Tree) (a0 : Bool) (s : LoopState)
    (h : 1 ≤ s.width ∧ 1 ≤ s.height) :
    (initState t0 a0).width = 800 ∧
    (initState t0 a0).height = 600 ∧
    (1 ≤ (loopIter parse painter svg_path inp s).width ∧
      1 ≤ (loopIter parse painter svg_path inp s).height) ∧
    pixmapNew (loopIter parse painter svg_path inp s).width
      (loopIter parse painter svg_path inp s).height = some () ∧
    pixmapNew (loopRun parse painter svg_path trace (initState t0 a0)).width
      (loopRun parse painter svg_path trace (initState t0 a0)).height = some () := by
  have hiter := loopIter_dims_pos parse painter svg_path inp s h.1 h.2
  have hrun := loopRun_dims_pos parse painter svg_path trace (initState t0 a0)
    (by norm_num [initState]) (by norm_num [initState])
  exact ⟨rfl, rfl, hiter, pixmapNew_pos _ _ hiter.1 hiter.2,
    pixmapNew_pos _ _ hrun.1 hrun.2⟩

/-- Witness for C10: one iteration from the initial state whose window
reports a 0×0 size still ends with positive dimensions and a successful
pixmap allocation. -/
theorem window_dims_positive_witness :
    (initState none true).width = 800 ∧
    (initState none true).height = 600 ∧
    (1 ≤ (loopIter sampleParse samplePainter samplePath zeroSizeInput
        (initState none true)).width ∧
      1 ≤ (loopIter sampleParse samplePainter samplePath zeroSizeInput
        (initState none true)).height) ∧
    pixmapNew (loopIter sampleParse samplePainter samplePath zeroSizeInput
        (initState none true)).width
      (loopIter sampleParse samplePainter samplePath zeroSizeInput
        (initState none true)).height = some () ∧
    pixmapNew (loopRun sampleParse samplePainter samplePath [] (initState none true)).width
      (loopRun sampleParse samplePainter samplePath [] (initState none true)).height
      = some () :=
  window_dims_positive sampleParse samplePainter samplePath zeroSizeInput [] none true
    (initState none true) ⟨by decide, by decide⟩

end Svgtail
